import Mathlib

/-!
Verification of the webhook ingestion and structured-data extraction pipeline
of the retell-ai-agent-builder backend, a shallow embedding of
`app/services/post_processing.py`, `app/services/call_analysis.py` and
`app/api/routes/webhooks.py`.

Python dictionaries holding JSON-like webhook data are embedded as
association lists over a value type `PyVal`; Python `None` is `PyVal.null`.
Database tables become lists of records; a SQLAlchemy session commit either
succeeds or fails, which we inject through an explicit `commit_fails` flag
(the `try`/`except` around the event transitions catches the failure and
calls `session.rollback()`, leaving the store unchanged).
-/

/-- A Python value as it occurs in a parsed webhook JSON payload. -/
inductive PyVal where
  | null
  | str (s : String)
  | bool (b : Bool)
  | int (n : Int)
  | dict (fields : List (String × PyVal))

/-- Python truthiness (`if not x`): `None`, `""`, `False`, `0` and `{}`
are falsy, everything else is truthy. -/
def PyVal.truthy : PyVal → Bool
  | .null => false
  | .str s => !(s == "")
  | .bool b => b
  | .int n => !(n == 0)
  | .dict d => !d.isEmpty

/-- Python `==` between an arbitrary value and a string literal: only a
string with the same characters compares equal (case-sensitive). -/
def pyEqStr : PyVal → String → Bool
  | .str s, t => s == t
  | _, _ => false

/-- Python `d.get(k)`: the stored value, or `None` when the key is absent. -/
def pyGet (d : List (String × PyVal)) (k : String) : PyVal :=
  (d.lookup k).getD .null

/-- Python `d.get(k, dflt)`. -/
def pyGetD (d : List (String × PyVal)) (k : String) (dflt : PyVal) : PyVal :=
  (d.lookup k).getD dflt

/-- Python `d.get(k, {})` whose result is then used as a dictionary:
an absent key yields the empty default, a stored dictionary yields its
fields, and any other stored value would raise (`none`). -/
def pyGetDictD (d : List (String × PyVal)) (k : String) :
    Option (List (String × PyVal)) :=
  match d.lookup k with
  | none => some []
  | some (.dict fields) => some fields
  | some _ => none

/-- `NORMAL_FLOW_FIELD_NAMES` from `app/services/call_analysis.py`:
the `name` entries of `NORMAL_FLOW_FIELDS`, in order. -/
def NORMAL_FLOW_FIELD_NAMES : List String :=
  ["driver_status", "current_location", "eta", "delay_reason",
   "unloading_status", "pod_reminder_acknowledged"]

/-- `EMERGENCY_FLOW_FIELD_NAMES` from `app/services/call_analysis.py`:
the `name` entries of `EMERGENCY_FLOW_FIELDS`, in order. -/
def EMERGENCY_FLOW_FIELD_NAMES : List String :=
  ["emergency_type", "safety_status", "injury_status", "emergency_location",
   "load_secure", "escalation_status"]

/-- `PostProcessingService.extract_structured_data` from
`app/services/post_processing.py`.  Returns `none` exactly when the Python
code would raise because `call_analysis` or `custom_analysis_data` is
present but not a dictionary. -/
def extract_structured_data (call_data : List (String × PyVal)) :
    Option (List (String × PyVal)) :=
  match pyGetDictD call_data "call_analysis" with
  | none => none
  | some call_analysis =>
    match pyGetDictD call_analysis "custom_analysis_data" with
    | none => none
    | some custom_data =>
      let call_outcome := pyGet custom_data "call_outcome"
      let result :=
        [("call_summary", pyGet call_analysis "call_summary"),
         ("call_successful", pyGet call_analysis "call_successful"),
         ("user_sentiment", pyGet call_analysis "user_sentiment"),
         ("in_voicemail", pyGet call_analysis "in_voicemail"),
         ("call_outcome", call_outcome)]
      if pyEqStr call_outcome "Emergency" then
        some (result ++
          EMERGENCY_FLOW_FIELD_NAMES.map (fun f => (f, pyGet custom_data f)))
      else
        some (result ++
          NORMAL_FLOW_FIELD_NAMES.map (fun f => (f, pyGet custom_data f)))

/-- The `Call` record of `app/models/call.py`.  The model file annotates the
primary key `id` as `Optional[int]`, but the migration declares the column
as a string and the creation route stores the vendor call id string in it,
so the key is embedded as a `String`.  `retell_call_id` is the separate
optional column of the model. -/
structure Call where
  id : String
  retell_agent_id : String
  driver_name : String
  phone_number : String
  load_number : String
  status : String
  retell_call_id : Option String
  created_at : Nat
  updated_at : Nat
deriving DecidableEq

/-- The `CallResult` record of `app/models/call_result.py`.  `transcript` is
whatever value the webhook payload carried (the column is declared `str`
but table models do not validate). -/
structure CallResult where
  id : Nat
  call_id : String
  transcript : PyVal
  structured_data : List (String × PyVal)
  created_at : Nat

/-- The relevant database state: the `test_calls` and `call_results` tables
plus the autoincrement counter feeding new `CallResult.id` values. -/
structure DB where
  calls : List Call
  results : List CallResult
  next_result_id : Nat

/-- Mutating the single record object returned by a query: replace the
first element satisfying `p` by its image under `f`, leave the rest. -/
def updateFirst (p : α → Bool) (f : α → α) : List α → List α
  | [] => []
  | x :: xs => if p x then f x :: xs else x :: updateFirst p f xs

/-- The webhook event discriminator of the `WebhookPayload` schema in
`app/api/routes/webhooks.py`. -/
inductive WebhookEvent where
  | call_started
  | call_ended
  | call_analyzed
deriving DecidableEq

/-- The validated `WebhookPayload` of `app/api/routes/webhooks.py`:
a literal event tag plus the raw `call` dictionary. -/
structure WebhookPayload where
  event : WebhookEvent
  call : List (String × PyVal)

/-- `WebhookPayload.model_validate`: succeeds when `event` is one of the
three literals and `call` is a dictionary. -/
def parse_webhook_payload (post_data : List (String × PyVal)) :
    Option WebhookPayload :=
  match post_data.lookup "event", post_data.lookup "call" with
  | some (.str "call_started"), some (.dict c) => some ⟨.call_started, c⟩
  | some (.str "call_ended"), some (.dict c) => some ⟨.call_ended, c⟩
  | some (.str "call_analyzed"), some (.dict c) => some ⟨.call_analyzed, c⟩
  | _, _ => none

/-- Outcome of the HTTP endpoint: response status, the background tasks it
dispatched, and the database state as the endpoint leaves it. -/
structure WebhookHttpResult where
  status : Nat
  background : List WebhookPayload
  db : DB

/-- The `retell_webhook` endpoint of `app/api/routes/webhooks.py`.
Signature verification is delegated to the vendor SDK; its boolean result
is the `valid_signature` argument.  A bad signature yields 401, a payload
that fails validation yields 400, otherwise processing is deferred to a
background task and 204 is returned.  The endpoint itself never touches
the store. -/
def retell_webhook (valid_signature : Bool)
    (post_data : List (String × PyVal)) (db : DB) : WebhookHttpResult :=
  if !valid_signature then ⟨401, [], db⟩
  else
    match parse_webhook_payload post_data with
    | none => ⟨400, [], db⟩
    | some payload => ⟨204, [payload], db⟩

/-- The `try` block of `process_webhook`: apply one event transition for
the call record `db_call` found under primary key `retell_call_id`.
`commit_fails` injects a store write failure at `session.commit()`;
`.error` means the Python code raised inside the block. -/
def apply_event (commit_fails : Bool) (now : Nat) (event : WebhookEvent)
    (call_data : List (String × PyVal)) (retell_call_id : PyVal)
    (db_call : Call) (db : DB) : Except Unit DB :=
  match event with
  | .call_started =>
    let calls := updateFirst (fun c => pyEqStr retell_call_id c.id)
      (fun c => { c with status := "in-progress" }) db.calls
    if commit_fails then .error () else .ok { db with calls := calls }
  | .call_ended =>
    let call_status := pyGetD call_data "call_status" (.str "unknown")
    let newStatus := if pyEqStr call_status "ended" then "completed" else "failed"
    let calls := updateFirst (fun c => pyEqStr retell_call_id c.id)
      (fun c => { c with status := newStatus }) db.calls
    if commit_fails then .error () else .ok { db with calls := calls }
  | .call_analyzed =>
    let transcript := pyGetD call_data "transcript" (.str "")
    match extract_structured_data call_data with
    | none => .error ()
    | some sd =>
      match db.results.find? (fun r => r.call_id == db_call.id) with
      | some _ =>
        let results := updateFirst (fun r => r.call_id == db_call.id)
          (fun r => { r with transcript := transcript, structured_data := sd })
          db.results
        if commit_fails then .error () else .ok { db with results := results }
      | none =>
        let results := db.results ++
          [⟨db.next_result_id, db_call.id, transcript, sd, now⟩]
        if commit_fails then .error ()
        else .ok { db with results := results,
                           next_result_id := db.next_result_id + 1 }

/-- `process_webhook` from `app/api/routes/webhooks.py`.  A missing or
falsy `call_id` aborts before any lookup; `session.get(Call, retell_call_id)`
is a primary-key lookup on `Call.id`; an unknown call is dropped; a raise
inside the `try` block is caught, logged and rolled back, leaving the store
unchanged.  (The debug dump of the payload to a JSON file touches only the
filesystem and is omitted.) -/
def process_webhook (commit_fails : Bool) (now : Nat)
    (payload : WebhookPayload) (db : DB) : DB :=
  let call_data := payload.call
  let retell_call_id := pyGet call_data "call_id"
  if !retell_call_id.truthy then db
  else
    match db.calls.find? (fun c => pyEqStr retell_call_id c.id) with
    | none => db
    | some db_call =>
      match apply_event commit_fails now payload.event call_data
          retell_call_id db_call db with
      | .ok db2 => db2
      | .error _ => db

/-! Helper lemmas about `updateFirst`, `find?`, `filter` and `countP`. -/

theorem updateFirst_of_find?_eq_none (p : α → Bool) (f : α → α)
    (l : List α) (h : l.find? p = none) : updateFirst p f l = l := by
  induction l with
  | nil => rfl
  | cons x xs ih =>
    rw [List.find?_cons] at h
    cases hx : p x with
    | true => simp [hx] at h
    | false =>
      simp only [hx] at h
      simp [updateFirst, hx, ih h]

theorem find?_updateFirst (p : α → Bool) (f : α → α) (l : List α) (x : α)
    (hp : ∀ y, p (f y) = p y) (h : l.find? p = some x) :
    (updateFirst p f l).find? p = some (f x) := by
  induction l with
  | nil => simp at h
  | cons y ys ih =>
    rw [List.find?_cons] at h
    cases hy : p y with
    | true =>
      simp only [hy, Option.some.injEq] at h
      subst h
      simp [updateFirst, hy, List.find?_cons, hp]
    | false =>
      simp only [hy] at h
      simp [updateFirst, hy, List.find?_cons, ih h]

theorem updateFirst_updateFirst (p : α → Bool) (f : α → α) (l : List α)
    (hp : ∀ y, p (f y) = p y) (hf : ∀ y, f (f y) = f y) :
    updateFirst p f (updateFirst p f l) = updateFirst p f l := by
  induction l with
  | nil => rfl
  | cons x xs ih =>
    cases hx : p x with
    | true => simp [updateFirst, hx, hp, hf]
    | false => simp [updateFirst, hx, ih]

theorem length_updateFirst (p : α → Bool) (f : α → α) (l : List α) :
    (updateFirst p f l).length = l.length := by
  induction l with
  | nil => rfl
  | cons x xs ih =>
    cases hx : p x with
    | true => simp [updateFirst, hx]
    | false => simp [updateFirst, hx, ih]

theorem countP_updateFirst (p q : α → Bool) (f : α → α) (l : List α)
    (hq : ∀ y, q (f y) = q y) :
    (updateFirst p f l).countP q = l.countP q := by
  induction l with
  | nil => rfl
  | cons x xs ih =>
    cases hx : p x with
    | true => simp [updateFirst, hx, List.countP_cons, hq]
    | false => simp [updateFirst, hx, List.countP_cons, ih]

theorem forall₂_updateFirst (R : α → α → Prop) (p : α → Bool) (f : α → α)
    (l : List α) (hrefl : ∀ x, R x x) (hf : ∀ x, R x (f x)) :
    List.Forall₂ R l (updateFirst p f l) := by
  induction l with
  | nil => exact List.Forall₂.nil
  | cons x xs ih =>
    cases hx : p x with
    | true =>
      simp only [updateFirst, hx, if_true]
      exact List.Forall₂.cons (hf x) (List.forall₂_same.mpr fun y _ => hrefl y)
    | false =>
      simp only [updateFirst, hx, if_false]
      exact List.Forall₂.cons (hrefl x) ih

theorem filter_eq_nil_of_find?_eq_none (p : α → Bool) (l : List α)
    (h : l.find? p = none) : l.filter p = [] := by
  rw [List.find?_eq_none] at h
  rw [List.filter_eq_nil_iff]
  exact fun a ha => by simpa using h a ha

theorem find?_eq_some_of_filter_eq_singleton (p : α → Bool) (l : List α)
    (r : α) (h : l.filter p = [r]) : l.find? p = some r := by
  induction l with
  | nil => simp at h
  | cons x xs ih =>
    cases hx : p x with
    | true =>
      rw [List.filter_cons, if_pos hx] at h
      rw [List.find?_cons, hx]
      exact congrArg some (List.cons_eq_cons.mp h).1
    | false =>
      rw [List.filter_cons, if_neg (by simp [hx])] at h
      rw [List.find?_cons, hx]
      exact ih h

theorem countP_eq_zero_of_find?_eq_none (p : α → Bool) (l : List α)
    (h : l.find? p = none) : l.countP p = 0 := by
  rw [List.find?_eq_none] at h
  rw [List.countP_eq_zero]
  exact fun a ha => by simpa using h a ha

theorem filter_updateFirst_singleton (p : α → Bool) (f : α → α) (l : List α)
    (r : α) (hp : ∀ y, p (f y) = p y) (h : l.filter p = [r]) :
    (updateFirst p f l).filter p = [f r] := by
  induction l with
  | nil => simp at h
  | cons x xs ih =>
    cases hx : p x with
    | true =>
      rw [List.filter_cons, if_pos hx] at h
      obtain ⟨rfl, hrest⟩ := List.cons_eq_cons.mp h
      rw [updateFirst, if_pos hx, List.filter_cons, if_pos (by simp [hp, hx]), hrest]
    | false =>
      rw [List.filter_cons, if_neg (by simp [hx])] at h
      rw [updateFirst, if_neg (by simp [hx]), List.filter_cons,
        if_neg (by simp [hx])]
      exact ih h

/-! Reduction lemmas for `process_webhook` and `apply_event`. -/

theorem process_webhook_not_truthy (f : Bool) (now : Nat)
    (payload : WebhookPayload) (db : DB)
    (h : (pyGet payload.call "call_id").truthy = false) :
    process_webhook f now payload db = db := by
  unfold process_webhook
  simp [h]

theorem process_webhook_unknown_call (f : Bool) (now : Nat)
    (payload : WebhookPayload) (db : DB)
    (h : db.calls.find?
      (fun c => pyEqStr (pyGet payload.call "call_id") c.id) = none) :
    process_webhook f now payload db = db := by
  unfold process_webhook
  cases htr : (pyGet payload.call "call_id").truthy <;> simp [htr, h]

theorem process_webhook_known (f : Bool) (now : Nat) (ev : WebhookEvent)
    (call_data : List (String × PyVal)) (db : DB) (c : Call)
    (htr : (pyGet call_data "call_id").truthy = true)
    (hfind : db.calls.find?
      (fun c2 => pyEqStr (pyGet call_data "call_id") c2.id) = some c) :
    process_webhook f now ⟨ev, call_data⟩ db =
      match apply_event f now ev call_data (pyGet call_data "call_id") c db with
      | .ok db2 => db2
      | .error _ => db := by
  unfold process_webhook
  simp [htr, hfind]

theorem apply_event_started (f : Bool) (now : Nat)
    (call_data : List (String × PyVal)) (rcid : PyVal) (c : Call) (db : DB) :
    apply_event f now .call_started call_data rcid c db =
      if f then .error () else
        .ok { db with
          calls := updateFirst (fun c2 => pyEqStr rcid c2.id)
            (fun c2 => { c2 with status := "in-progress" }) db.calls } := rfl

theorem apply_event_ended (f : Bool) (now : Nat)
    (call_data : List (String × PyVal)) (rcid : PyVal) (c : Call) (db : DB) :
    apply_event f now .call_ended call_data rcid c db =
      if f then .error () else
        .ok { db with
          calls := updateFirst (fun c2 => pyEqStr rcid c2.id)
            (fun c2 => { c2 with
              status := if pyEqStr
                  (pyGetD call_data "call_status" (.str "unknown")) "ended"
                then "completed" else "failed" }) db.calls } := rfl

theorem apply_event_analyzed_raise (f : Bool) (now : Nat)
    (call_data : List (String × PyVal)) (rcid : PyVal) (c : Call) (db : DB)
    (hsd : extract_structured_data call_data = none) :
    apply_event f now .call_analyzed call_data rcid c db = .error () := by
  unfold apply_event
  simp [hsd]

theorem apply_event_analyzed_insert (f : Bool) (now : Nat)
    (call_data : List (String × PyVal)) (rcid : PyVal) (c : Call) (db : DB)
    (sd : List (String × PyVal))
    (hsd : extract_structured_data call_data = some sd)
    (hnone : db.results.find? (fun r => r.call_id == c.id) = none) :
    apply_event f now .call_analyzed call_data rcid c db =
      if f then .error () else
        .ok { db with
          results := db.results ++
            [⟨db.next_result_id, c.id,
              pyGetD call_data "transcript" (.str ""), sd, now⟩],
          next_result_id := db.next_result_id + 1 } := by
  unfold apply_event
  simp [hsd, hnone]

theorem apply_event_analyzed_update (f : Bool) (now : Nat)
    (call_data : List (String × PyVal)) (rcid : PyVal) (c : Call) (db : DB)
    (sd : List (String × PyVal)) (r : CallResult)
    (hsd : extract_structured_data call_data = some sd)
    (hsome : db.results.find? (fun r2 => r2.call_id == c.id) = some r) :
    apply_event f now .call_analyzed call_data rcid c db =
      if f then .error () else
        .ok { db with
          results := updateFirst (fun r2 => r2.call_id == c.id)
            (fun r2 => { r2 with
              transcript := pyGetD call_data "transcript" (.str ""),
              structured_data := sd }) db.results } := by
  unfold apply_event
  simp [hsd, hsome]

theorem apply_event_commit_fails (now : Nat) (ev : WebhookEvent)
    (call_data : List (String × PyVal)) (rcid : PyVal) (c : Call) (db : DB) :
    apply_event true now ev call_data rcid c db = .error () := by
  cases ev with
  | call_started => simp [apply_event]
  | call_ended => simp [apply_event]
  | call_analyzed =>
    cases hsd : extract_structured_data call_data with
    | none => exact apply_event_analyzed_raise true now call_data rcid c db hsd
    | some sd =>
      cases hr : db.results.find? (fun r => r.call_id == c.id) with
      | none => rw [apply_event_analyzed_insert true now call_data rcid c db sd hsd hr, if_pos rfl]
      | some r => rw [apply_event_analyzed_update true now call_data rcid c db sd r hsd hr, if_pos rfl]

theorem process_webhook_commit_fails (now : Nat) (payload : WebhookPayload)
    (db : DB) : process_webhook true now payload db = db := by
  obtain ⟨ev, call_data⟩ := payload
  cases htr : (pyGet call_data "call_id").truthy with
  | false => exact process_webhook_not_truthy true now ⟨ev, call_data⟩ db htr
  | true =>
    cases hfind : db.calls.find?
        (fun c => pyEqStr (pyGet call_data "call_id") c.id) with
    | none => exact process_webhook_unknown_call true now ⟨ev, call_data⟩ db hfind
    | some c =>
      rw [process_webhook_known true now ev call_data db c htr hfind,
        apply_event_commit_fails]

/-! Concrete fixtures used by the witnesses. -/

/-- A custom analysis dictionary whose outcome is "Emergency". -/
def sampleEmergencyCustomData : List (String × PyVal) :=
  [("call_outcome", .str "Emergency"), ("emergency_type", .str "Accident")]

/-- A webhook `call` dictionary carrying an emergency analysis. -/
def sampleEmergencyCallData : List (String × PyVal) :=
  [("call_analysis", .dict
    [("call_summary", .str "Driver reported an accident"),
     ("custom_analysis_data", .dict sampleEmergencyCustomData)])]

/-- The extractor output on `sampleEmergencyCallData`. -/
def sampleEmergencyOut : List (String × PyVal) :=
  [("call_summary", .str "Driver reported an accident"),
   ("call_successful", .null), ("user_sentiment", .null),
   ("in_voicemail", .null), ("call_outcome", .str "Emergency"),
   ("emergency_type", .str "Accident"), ("safety_status", .null),
   ("injury_status", .null), ("emergency_location", .null),
   ("load_secure", .null), ("escalation_status", .null)]

/-! Claims. -/

/-- Claim C1: whenever the extractor produces a result mapping, it contains
the five universal keys plus exactly the field names of the one branch
selected by case-sensitive comparison of the custom analysis data
field `call_outcome` with the literal "Emergency"; each selected branch value is
looked up independently in the custom analysis data (null when absent), and
the keys of the unmatched branch are absent from the result, not null-filled. -/
theorem C1_extract_structured_data_branches
    (call_data ca cd out : List (String × PyVal))
    (hca : pyGetDictD call_data "call_analysis" = some ca)
    (hcd : pyGetDictD ca "custom_analysis_data" = some cd)
    (hout : extract_structured_data call_data = some out) :
    (pyEqStr (pyGet cd "call_outcome") "Emergency" = true →
      out.map Prod.fst =
        ["call_summary", "call_successful", "user_sentiment", "in_voicemail",
         "call_outcome"] ++ EMERGENCY_FLOW_FIELD_NAMES ∧
      (∀ f ∈ EMERGENCY_FLOW_FIELD_NAMES, out.lookup f = some (pyGet cd f)) ∧
      (∀ f ∈ NORMAL_FLOW_FIELD_NAMES, out.lookup f = none)) ∧
    (pyEqStr (pyGet cd "call_outcome") "Emergency" = false →
      out.map Prod.fst =
        ["call_summary", "call_successful", "user_sentiment", "in_voicemail",
         "call_outcome"] ++ NORMAL_FLOW_FIELD_NAMES ∧
      (∀ f ∈ NORMAL_FLOW_FIELD_NAMES, out.lookup f = some (pyGet cd f)) ∧
      (∀ f ∈ EMERGENCY_FLOW_FIELD_NAMES, out.lookup f = none)) ∧
    out.lookup "call_summary" = some (pyGet ca "call_summary") ∧
    out.lookup "call_successful" = some (pyGet ca "call_successful") ∧
    out.lookup "user_sentiment" = some (pyGet ca "user_sentiment") ∧
    out.lookup "in_voicemail" = some (pyGet ca "in_voicemail") ∧
    out.lookup "call_outcome" = some (pyGet cd "call_outcome") := by
  simp only [extract_structured_data, hca, hcd] at hout
  cases hb : pyEqStr (pyGet cd "call_outcome") "Emergency" with
  | true =>
    rw [if_pos hb] at hout
    injection hout with hout
    subst hout
    refine ⟨fun _ => ⟨rfl, ?_, ?_⟩,
      fun hfalse => by simp [hb] at hfalse, rfl, rfl, rfl, rfl, rfl⟩
    · intro f hf; fin_cases hf <;> rfl
    · intro f hf; fin_cases hf <;> rfl
  | false =>
    rw [if_neg (by simp [hb])] at hout
    injection hout with hout
    subst hout
    refine ⟨fun htrue => by simp [hb] at htrue,
      fun _ => ⟨rfl, ?_, ?_⟩, rfl, rfl, rfl, rfl, rfl⟩
    · intro f hf; fin_cases hf <;> rfl
    · intro f hf; fin_cases hf <;> rfl

/-- Witness for C1 at a concrete emergency payload. -/
theorem C1_extract_structured_data_branches_witness :
    extract_structured_data sampleEmergencyCallData = some sampleEmergencyOut ∧
    sampleEmergencyOut.map Prod.fst =
      ["call_summary", "call_successful", "user_sentiment", "in_voicemail",
       "call_outcome"] ++ EMERGENCY_FLOW_FIELD_NAMES ∧
    sampleEmergencyOut.lookup "emergency_type" = some (.str "Accident") ∧
    sampleEmergencyOut.lookup "driver_status" = none :=
  have h := C1_extract_structured_data_branches sampleEmergencyCallData _
    sampleEmergencyCustomData sampleEmergencyOut rfl rfl rfl
  ⟨rfl, (h.1 (by decide)).1, (h.1 (by decide)).2.1 "emergency_type" (by decide),
    (h.1 (by decide)).2.2 "driver_status" (by decide)⟩

/-- A sample call record keyed by its vendor call id. -/
def sampleCall : Call :=
  { id := "call_123", retell_agent_id := "agent_1", driver_name := "Mike",
    phone_number := "+15550100", load_number := "L-42", status := "pending",
    retell_call_id := none, created_at := 0, updated_at := 0 }

/-- A one-call store with no results yet. -/
def sampleDB : DB := { calls := [sampleCall], results := [], next_result_id := 1 }

/-! Composition helpers for whole-pipeline reductions. -/

theorem process_webhook_known_ok (f : Bool) (now : Nat) (ev : WebhookEvent)
    (call_data : List (String × PyVal)) (db : DB) (c : Call) (db2 : DB)
    (htr : (pyGet call_data "call_id").truthy = true)
    (hfind : db.calls.find?
      (fun c2 => pyEqStr (pyGet call_data "call_id") c2.id) = some c)
    (happ : apply_event f now ev call_data (pyGet call_data "call_id") c db =
      .ok db2) :
    process_webhook f now ⟨ev, call_data⟩ db = db2 := by
  rw [process_webhook_known f now ev call_data db c htr hfind, happ]

theorem process_webhook_known_error (f : Bool) (now : Nat) (ev : WebhookEvent)
    (call_data : List (String × PyVal)) (db : DB) (c : Call)
    (htr : (pyGet call_data "call_id").truthy = true)
    (hfind : db.calls.find?
      (fun c2 => pyEqStr (pyGet call_data "call_id") c2.id) = some c)
    (happ : apply_event f now ev call_data (pyGet call_data "call_id") c db =
      .error ()) :
    process_webhook f now ⟨ev, call_data⟩ db = db := by
  rw [process_webhook_known f now ev call_data db c htr hfind, happ]

theorem apply_event_started_ok (now : Nat) (call_data : List (String × PyVal))
    (rcid : PyVal) (c : Call) (db : DB) :
    apply_event false now .call_started call_data rcid c db =
      .ok { db with
        calls := updateFirst (fun c2 => pyEqStr rcid c2.id)
          (fun c2 => { c2 with status := "in-progress" }) db.calls } := rfl

theorem apply_event_ended_ok (now : Nat) (call_data : List (String × PyVal))
    (rcid : PyVal) (c : Call) (db : DB) :
    apply_event false now .call_ended call_data rcid c db =
      .ok { db with
        calls := updateFirst (fun c2 => pyEqStr rcid c2.id)
          (fun c2 => { c2 with
            status := if pyEqStr
                (pyGetD call_data "call_status" (.str "unknown")) "ended"
              then "completed" else "failed" }) db.calls } := rfl

theorem apply_event_analyzed_insert_ok (now : Nat)
    (call_data : List (String × PyVal)) (rcid : PyVal) (c : Call) (db : DB)
    (sd : List (String × PyVal))
    (hsd : extract_structured_data call_data = some sd)
    (hnone : db.results.find? (fun r => r.call_id == c.id) = none) :
    apply_event false now .call_analyzed call_data rcid c db =
      .ok { db with
        results := db.results ++
          [⟨db.next_result_id, c.id,
            pyGetD call_data "transcript" (.str ""), sd, now⟩],
        next_result_id := db.next_result_id + 1 } := by
  rw [apply_event_analyzed_insert false now call_data rcid c db sd hsd hnone]
  rfl

theorem apply_event_analyzed_update_ok (now : Nat)
    (call_data : List (String × PyVal)) (rcid : PyVal) (c : Call) (db : DB)
    (sd : List (String × PyVal)) (r : CallResult)
    (hsd : extract_structured_data call_data = some sd)
    (hsome : db.results.find? (fun r2 => r2.call_id == c.id) = some r) :
    apply_event false now .call_analyzed call_data rcid c db =
      .ok { db with
        results := updateFirst (fun r2 => r2.call_id == c.id)
          (fun r2 => { r2 with
            transcript := pyGetD call_data "transcript" (.str ""),
            structured_data := sd }) db.results } := by
  rw [apply_event_analyzed_update false now call_data rcid c db sd r hsd hsome]
  rfl

/-- Claim C6: a request whose signature fails verification is answered with
HTTP 401; no background processing is dispatched and the store is neither
read nor changed. -/
theorem C6_invalid_signature_rejected (post_data : List (String × PyVal))
    (db : DB) : retell_webhook false post_data db = ⟨401, [], db⟩ := rfl

/-- Claim C7: a verified event whose call id matches no stored Call is
discarded: the store is left exactly as it was, with no error raised. -/
theorem C7_unknown_call_discarded (f : Bool) (now : Nat)
    (payload : WebhookPayload) (db : DB)
    (_htr : (pyGet payload.call "call_id").truthy = true)
    (hfind : db.calls.find?
      (fun c => pyEqStr (pyGet payload.call "call_id") c.id) = none) :
    process_webhook f now payload db = db :=
  process_webhook_unknown_call f now payload db hfind

/-- Witness for C7: a call_ended event for an unknown call id leaves the
sample store untouched. -/
theorem C7_unknown_call_discarded_witness :
    process_webhook false 0
      ⟨.call_ended, [("call_id", .str "call_999")]⟩ sampleDB = sampleDB :=
  C7_unknown_call_discarded false 0
    ⟨.call_ended, [("call_id", .str "call_999")]⟩ sampleDB (by decide) rfl

/-- Claim C8: a failure while applying the transition of an event — a store
write failure at commit, or the extractor raising on a malformed analysis
payload — is caught: the store is left unchanged by that event and
`process_webhook` returns normally. -/
theorem C8_failure_caught_and_rolled_back :
    (∀ (now : Nat) (payload : WebhookPayload) (db : DB),
      process_webhook true now payload db = db) ∧
    (∀ (f : Bool) (now : Nat) (call_data : List (String × PyVal)) (db : DB),
      extract_structured_data call_data = none →
      process_webhook f now ⟨.call_analyzed, call_data⟩ db = db) := by
  constructor
  · exact process_webhook_commit_fails
  · intro f now call_data db hsd
    cases htr : (pyGet call_data "call_id").truthy with
    | false =>
      exact process_webhook_not_truthy f now ⟨.call_analyzed, call_data⟩ db htr
    | true =>
      cases hfind : db.calls.find?
          (fun c => pyEqStr (pyGet call_data "call_id") c.id) with
      | none =>
        exact process_webhook_unknown_call f now
          ⟨.call_analyzed, call_data⟩ db hfind
      | some c =>
        exact process_webhook_known_error f now .call_analyzed call_data db c
          htr hfind
          (apply_event_analyzed_raise f now call_data
            (pyGet call_data "call_id") c db hsd)

/-- Witness for C8: a failing commit on a call_started event, and a
call_analyzed payload whose call_analysis is not a mapping, both leave the
sample store unchanged. -/
theorem C8_failure_caught_and_rolled_back_witness :
    process_webhook true 0
      ⟨.call_started, [("call_id", .str "call_123")]⟩ sampleDB = sampleDB ∧
    process_webhook false 0
      ⟨.call_analyzed,
        [("call_id", .str "call_123"), ("call_analysis", .str "oops")]⟩
      sampleDB = sampleDB :=
  ⟨C8_failure_caught_and_rolled_back.1 0
      ⟨.call_started, [("call_id", .str "call_123")]⟩ sampleDB,
    C8_failure_caught_and_rolled_back.2 false 0
      [("call_id", .str "call_123"), ("call_analysis", .str "oops")]
      sampleDB rfl⟩

/-- Claim C9: a payload whose call dictionary lacks a call_id key, or whose
call_id value is falsy (empty string, null, zero, false, empty mapping),
makes `process_webhook` return before any lookup: the store is unchanged
for every event type. -/
theorem C9_falsy_call_id_aborts (f : Bool) (now : Nat)
    (payload : WebhookPayload) (db : DB)
    (h : (pyGet payload.call "call_id").truthy = false) :
    process_webhook f now payload db = db :=
  process_webhook_not_truthy f now payload db h

/-- Witness for C9: a payload with no call_id key and one with an empty
string call_id both leave the sample store unchanged. -/
theorem C9_falsy_call_id_aborts_witness :
    process_webhook false 0 ⟨.call_started, []⟩ sampleDB = sampleDB ∧
    process_webhook false 0
      ⟨.call_analyzed, [("call_id", .str "")]⟩ sampleDB = sampleDB :=
  ⟨C9_falsy_call_id_aborts false 0 ⟨.call_started, []⟩ sampleDB (by decide),
    C9_falsy_call_id_aborts false 0
      ⟨.call_analyzed, [("call_id", .str "")]⟩ sampleDB (by decide)⟩

/-- Claim C4: for a known Call, call_ended sets the status to "completed"
exactly when the call_status value of the payload equals the string "ended"
(any other value, and a missing key which defaults to "unknown", sets
"failed"). -/
theorem C4_call_ended_completed_iff_ended (now : Nat)
    (call_data : List (String × PyVal)) (db : DB) (c : Call)
    (htr : (pyGet call_data "call_id").truthy = true)
    (hfind : db.calls.find?
      (fun c2 => pyEqStr (pyGet call_data "call_id") c2.id) = some c) :
    (process_webhook false now ⟨.call_ended, call_data⟩ db).calls.find?
      (fun c2 => pyEqStr (pyGet call_data "call_id") c2.id) =
      some { c with
        status := if pyEqStr
            (pyGetD call_data "call_status" (.str "unknown")) "ended"
          then "completed" else "failed" } ∧
    (pyEqStr (pyGetD call_data "call_status" (.str "unknown")) "ended" = true ↔
      call_data.lookup "call_status" = some (.str "ended")) := by
  constructor
  · rw [process_webhook_known_ok false now .call_ended call_data db c _ htr
      hfind (apply_event_ended_ok now call_data (pyGet call_data "call_id") c db)]
    exact find?_updateFirst _ _ db.calls c (fun y => rfl) hfind
  · unfold pyGetD
    cases hlk : call_data.lookup "call_status" with
    | none => simp [pyEqStr]
    | some v => cases v <;> simp [pyEqStr]

/-- Witness for C4: a call_ended event with vendor sub-status "ended" marks
the sample call "completed", and the sub-status comparison agrees with the
raw lookup. -/
theorem C4_call_ended_completed_iff_ended_witness :
    (process_webhook false 0
      ⟨.call_ended,
        [("call_id", .str "call_123"), ("call_status", .str "ended")]⟩
      sampleDB).calls.find?
        (fun c2 => pyEqStr
          (pyGet [("call_id", .str "call_123"), ("call_status", .str "ended")]
            "call_id") c2.id) =
      some { sampleCall with status := "completed" } :=
  (C4_call_ended_completed_iff_ended 0
    [("call_id", .str "call_123"), ("call_status", .str "ended")]
    sampleDB sampleCall (by decide) rfl).1

/-- Claim C5: for a known Call, call_started sets the status to
"in-progress" regardless of the prior status, and processing the same
call_started payload twice leaves the same store as processing it once. -/
theorem C5_call_started_in_progress_idempotent :
    (∀ (now : Nat) (call_data : List (String × PyVal)) (db : DB) (c : Call),
      (pyGet call_data "call_id").truthy = true →
      db.calls.find?
        (fun c2 => pyEqStr (pyGet call_data "call_id") c2.id) = some c →
      (process_webhook false now ⟨.call_started, call_data⟩ db).calls.find?
        (fun c2 => pyEqStr (pyGet call_data "call_id") c2.id) =
        some { c with status := "in-progress" }) ∧
    (∀ (f : Bool) (now now2 : Nat) (call_data : List (String × PyVal))
        (db : DB),
      process_webhook f now2 ⟨.call_started, call_data⟩
        (process_webhook f now ⟨.call_started, call_data⟩ db) =
      process_webhook f now ⟨.call_started, call_data⟩ db) := by
  constructor
  · intro now call_data db c htr hfind
    rw [process_webhook_known_ok false now .call_started call_data db c _ htr
      hfind
      (apply_event_started_ok now call_data (pyGet call_data "call_id") c db)]
    exact find?_updateFirst _ _ db.calls c (fun y => rfl) hfind
  · intro f now now2 call_data db
    cases f with
    | true => simp only [process_webhook_commit_fails]
    | false =>
      cases htr : (pyGet call_data "call_id").truthy with
      | false =>
        rw [process_webhook_not_truthy false now
          ⟨.call_started, call_data⟩ db htr]
        exact process_webhook_not_truthy false now2
          ⟨.call_started, call_data⟩ db htr
      | true =>
        cases hfind : db.calls.find?
            (fun c => pyEqStr (pyGet call_data "call_id") c.id) with
        | none =>
          rw [process_webhook_unknown_call false now
            ⟨.call_started, call_data⟩ db hfind]
          exact process_webhook_unknown_call false now2
            ⟨.call_started, call_data⟩ db hfind
        | some c =>
          have hupd := find?_updateFirst
            (fun c2 => pyEqStr (pyGet call_data "call_id") c2.id)
            (fun c2 => { c2 with status := "in-progress" })
            db.calls c (fun y => rfl) hfind
          rw [process_webhook_known_ok false now .call_started call_data db c
            { db with
              calls := updateFirst
                (fun c2 => pyEqStr (pyGet call_data "call_id") c2.id)
                (fun c2 => { c2 with status := "in-progress" }) db.calls }
            htr hfind
            (apply_event_started_ok now call_data
              (pyGet call_data "call_id") c db)]
          rw [process_webhook_known_ok false now2 .call_started call_data
            { db with
              calls := updateFirst
                (fun c2 => pyEqStr (pyGet call_data "call_id") c2.id)
                (fun c2 => { c2 with status := "in-progress" }) db.calls }
            { c with status := "in-progress" }
            { db with
              calls := updateFirst
                (fun c2 => pyEqStr (pyGet call_data "call_id") c2.id)
                (fun c2 => { c2 with status := "in-progress" })
                (updateFirst
                  (fun c2 => pyEqStr (pyGet call_data "call_id") c2.id)
                  (fun c2 => { c2 with status := "in-progress" }) db.calls) }
            htr hupd
            (apply_event_started_ok now2 call_data
              (pyGet call_data "call_id") { c with status := "in-progress" }
              { db with
                calls := updateFirst
                  (fun c2 => pyEqStr (pyGet call_data "call_id") c2.id)
                  (fun c2 => { c2 with status := "in-progress" }) db.calls })]
          congr 1
          exact updateFirst_updateFirst _ _ db.calls (fun y => rfl)
            (fun y => rfl)

/-- Witness for C5: a call_started event moves the sample call from
"pending" to "in-progress", and a repeated delivery changes nothing
further. -/
theorem C5_call_started_in_progress_idempotent_witness :
    (process_webhook false 0
      ⟨.call_started, [("call_id", .str "call_123")]⟩ sampleDB).calls.find?
        (fun c2 => pyEqStr
          (pyGet [("call_id", .str "call_123")] "call_id") c2.id) =
      some { sampleCall with status := "in-progress" } ∧
    process_webhook false 1 ⟨.call_started, [("call_id", .str "call_123")]⟩
      (process_webhook false 0
        ⟨.call_started, [("call_id", .str "call_123")]⟩ sampleDB) =
    process_webhook false 0
      ⟨.call_started, [("call_id", .str "call_123")]⟩ sampleDB :=
  ⟨C5_call_started_in_progress_idempotent.1 0 [("call_id", .str "call_123")]
      sampleDB sampleCall (by decide) rfl,
    C5_call_started_in_progress_idempotent.2 false 0 1
      [("call_id", .str "call_123")] sampleDB⟩

/-- Two call records that agree on every field except possibly `status`. -/
def sameExceptStatus (c c2 : Call) : Prop :=
  c2.id = c.id ∧ c2.retell_agent_id = c.retell_agent_id ∧
  c2.driver_name = c.driver_name ∧ c2.phone_number = c.phone_number ∧
  c2.load_number = c.load_number ∧ c2.retell_call_id = c.retell_call_id ∧
  c2.created_at = c.created_at ∧ c2.updated_at = c.updated_at

theorem sameExceptStatus_refl (c : Call) : sameExceptStatus c c :=
  ⟨rfl, rfl, rfl, rfl, rfl, rfl, rfl, rfl⟩

/-- Claim C10: processing any event only ever assigns `status` on call
records — every other Call field is untouched — and a call_analyzed event
leaves the calls table entirely unchanged, while call_started and
call_ended leave the results table (and its id counter) unchanged. -/
theorem C10_only_status_assigned (f : Bool) (now : Nat)
    (payload : WebhookPayload) (db : DB) :
    List.Forall₂ sameExceptStatus db.calls
      ((process_webhook f now payload db).calls) ∧
    (payload.event = .call_analyzed →
      (process_webhook f now payload db).calls = db.calls) ∧
    (payload.event ≠ .call_analyzed →
      (process_webhook f now payload db).results = db.results ∧
      (process_webhook f now payload db).next_result_id =
        db.next_result_id) := by
  obtain ⟨ev, call_data⟩ := payload
  have hrefl : ∀ (l : List Call), List.Forall₂ sameExceptStatus l l :=
    fun l => List.forall₂_same.mpr fun x _ => sameExceptStatus_refl x
  cases f with
  | true =>
    rw [process_webhook_commit_fails]
    exact ⟨hrefl db.calls, fun _ => rfl, fun _ => ⟨rfl, rfl⟩⟩
  | false =>
    cases htr : (pyGet call_data "call_id").truthy with
    | false =>
      rw [process_webhook_not_truthy false now ⟨ev, call_data⟩ db htr]
      exact ⟨hrefl db.calls, fun _ => rfl, fun _ => ⟨rfl, rfl⟩⟩
    | true =>
      cases hfind : db.calls.find?
          (fun c => pyEqStr (pyGet call_data "call_id") c.id) with
      | none =>
        rw [process_webhook_unknown_call false now ⟨ev, call_data⟩ db hfind]
        exact ⟨hrefl db.calls, fun _ => rfl, fun _ => ⟨rfl, rfl⟩⟩
      | some c =>
        cases ev with
        | call_started =>
          rw [process_webhook_known_ok false now .call_started call_data db c
            { db with
              calls := updateFirst
                (fun c2 => pyEqStr (pyGet call_data "call_id") c2.id)
                (fun c2 => { c2 with status := "in-progress" }) db.calls }
            htr hfind
            (apply_event_started_ok now call_data
              (pyGet call_data "call_id") c db)]
          refine ⟨?_, ?_, ?_⟩
          · exact forall₂_updateFirst sameExceptStatus _ _ db.calls
              sameExceptStatus_refl
              (fun x => ⟨rfl, rfl, rfl, rfl, rfl, rfl, rfl, rfl⟩)
          · intro hev
            exact absurd hev (by intro h; cases h)
          · intro _
            exact ⟨rfl, rfl⟩
        | call_ended =>
          rw [process_webhook_known_ok false now .call_ended call_data db c
            { db with
              calls := updateFirst
                (fun c2 => pyEqStr (pyGet call_data "call_id") c2.id)
                (fun c2 => { c2 with
                  status := if pyEqStr
                      (pyGetD call_data "call_status" (.str "unknown")) "ended"
                    then "completed" else "failed" }) db.calls }
            htr hfind
            (apply_event_ended_ok now call_data
              (pyGet call_data "call_id") c db)]
          refine ⟨?_, ?_, ?_⟩
          · exact forall₂_updateFirst sameExceptStatus _ _ db.calls
              sameExceptStatus_refl
              (fun x => ⟨rfl, rfl, rfl, rfl, rfl, rfl, rfl, rfl⟩)
          · intro hev
            exact absurd hev (by intro h; cases h)
          · intro _
            exact ⟨rfl, rfl⟩
        | call_analyzed =>
          cases hsd : extract_structured_data call_data with
          | none =>
            rw [process_webhook_known_error false now .call_analyzed call_data
              db c htr hfind
              (apply_event_analyzed_raise false now call_data
                (pyGet call_data "call_id") c db hsd)]
            exact ⟨hrefl db.calls, fun _ => rfl, fun _ => ⟨rfl, rfl⟩⟩
          | some sd =>
            cases hex : db.results.find? (fun r => r.call_id == c.id) with
            | none =>
              rw [process_webhook_known_ok false now .call_analyzed call_data
                db c
                { db with
                  results := db.results ++
                    [⟨db.next_result_id, c.id,
                      pyGetD call_data "transcript" (.str ""), sd, now⟩],
                  next_result_id := db.next_result_id + 1 }
                htr hfind
                (apply_event_analyzed_insert_ok now call_data
                  (pyGet call_data "call_id") c db sd hsd hex)]
              exact ⟨hrefl db.calls, fun _ => rfl,
                fun hev => absurd rfl hev⟩
            | some r =>
              rw [process_webhook_known_ok false now .call_analyzed call_data
                db c
                { db with
                  results := updateFirst (fun r2 => r2.call_id == c.id)
                    (fun r2 => { r2 with
                      transcript := pyGetD call_data "transcript" (.str ""),
                      structured_data := sd }) db.results }
                htr hfind
                (apply_event_analyzed_update_ok now call_data
                  (pyGet call_data "call_id") c db sd r hsd hex)]
              exact ⟨hrefl db.calls, fun _ => rfl,
                fun hev => absurd rfl hev⟩

/-- Witness for C10: a call_started event on the sample store keeps every
non-status field and the results table unchanged. -/
theorem C10_only_status_assigned_witness :
    List.Forall₂ sameExceptStatus sampleDB.calls
      ((process_webhook false 0
        ⟨.call_started, [("call_id", .str "call_123")]⟩ sampleDB).calls) ∧
    (process_webhook false 0
      ⟨.call_started, [("call_id", .str "call_123")]⟩ sampleDB).results =
      sampleDB.results :=
  have h := C10_only_status_assigned false 0
    ⟨.call_started, [("call_id", .str "call_123")]⟩ sampleDB
  ⟨h.1, (h.2.2 (by decide)).1⟩

/-- A call whose primary key differs from its stored vendor call id. -/
def mismatchedCall : Call :=
  { id := "1", retell_agent_id := "agent_1", driver_name := "Mike",
    phone_number := "+15550100", load_number := "L-42", status := "pending",
    retell_call_id := some "call_xyz", created_at := 0, updated_at := 0 }

/-- A store containing only `mismatchedCall`. -/
def mismatchedDB : DB :=
  { calls := [mismatchedCall], results := [], next_result_id := 1 }

/-- Counterexample to C3 as stated: the only Call in the store carries external
call id "call_xyz" in its `retell_call_id` column, yet a call_started event
for "call_xyz" is dropped as unknown — the processor matches on the primary
key `id`, never on the `retell_call_id` column, so the event is not applied
to the Call whose external call id equals the call id of the payload. -/
theorem C3_counterexample :
    mismatchedCall.retell_call_id = some "call_xyz" ∧
    process_webhook false 0
      ⟨.call_started, [("call_id", .str "call_xyz")]⟩ mismatchedDB =
      mismatchedDB ∧
    (process_webhook false 0
      ⟨.call_started, [("call_id", .str "call_xyz")]⟩
      mismatchedDB).calls.map Call.status = ["pending"] :=
  ⟨rfl, rfl, rfl⟩

/-- C3 amended: the processor looks the Call up by primary key — the only
call record an event can affect is the first one whose `id` column equals
the value of `call.call_id` in the payload, and the only field it can change is the
status; the `retell_call_id` column is never consulted. -/
theorem C3_amended_primary_key_matching (f : Bool) (now : Nat)
    (payload : WebhookPayload) (db : DB) :
    (process_webhook f now payload db).calls = db.calls ∨
    ∃ s : String, (process_webhook f now payload db).calls =
      updateFirst (fun c => pyEqStr (pyGet payload.call "call_id") c.id)
        (fun c => { c with status := s }) db.calls := by
  obtain ⟨ev, call_data⟩ := payload
  cases f with
  | true =>
    left
    rw [process_webhook_commit_fails]
  | false =>
    cases htr : (pyGet call_data "call_id").truthy with
    | false =>
      left
      rw [process_webhook_not_truthy false now ⟨ev, call_data⟩ db htr]
    | true =>
      cases hfind : db.calls.find?
          (fun c => pyEqStr (pyGet call_data "call_id") c.id) with
      | none =>
        left
        rw [process_webhook_unknown_call false now ⟨ev, call_data⟩ db hfind]
      | some c =>
        cases ev with
        | call_started =>
          right
          exact ⟨"in-progress",
            by rw [process_webhook_known_ok false now .call_started call_data
              db c
              { db with
                calls := updateFirst
                  (fun c2 => pyEqStr (pyGet call_data "call_id") c2.id)
                  (fun c2 => { c2 with status := "in-progress" }) db.calls }
              htr hfind
              (apply_event_started_ok now call_data
                (pyGet call_data "call_id") c db)]⟩
        | call_ended =>
          right
          exact ⟨if pyEqStr (pyGetD call_data "call_status" (.str "unknown"))
              "ended" then "completed" else "failed",
            by rw [process_webhook_known_ok false now .call_ended call_data
              db c
              { db with
                calls := updateFirst
                  (fun c2 => pyEqStr (pyGet call_data "call_id") c2.id)
                  (fun c2 => { c2 with
                    status := if pyEqStr
                        (pyGetD call_data "call_status" (.str "unknown"))
                        "ended"
                      then "completed" else "failed" }) db.calls }
              htr hfind
              (apply_event_ended_ok now call_data
                (pyGet call_data "call_id") c db)]⟩
        | call_analyzed =>
          left
          cases hsd : extract_structured_data call_data with
          | none =>
            rw [process_webhook_known_error false now .call_analyzed call_data
              db c htr hfind
              (apply_event_analyzed_raise false now call_data
                (pyGet call_data "call_id") c db hsd)]
          | some sd =>
            cases hex : db.results.find? (fun r => r.call_id == c.id) with
            | none =>
              rw [process_webhook_known_ok false now .call_analyzed call_data
                db c
                { db with
                  results := db.results ++
                    [⟨db.next_result_id, c.id,
                      pyGetD call_data "transcript" (.str ""), sd, now⟩],
                  next_result_id := db.next_result_id + 1 }
                htr hfind
                (apply_event_analyzed_insert_ok now call_data
                  (pyGet call_data "call_id") c db sd hsd hex)]
            | some r =>
              rw [process_webhook_known_ok false now .call_analyzed call_data
                db c
                { db with
                  results := updateFirst (fun r2 => r2.call_id == c.id)
                    (fun r2 => { r2 with
                      transcript := pyGetD call_data "transcript" (.str ""),
                      structured_data := sd }) db.results }
                htr hfind
                (apply_event_analyzed_update_ok now call_data
                  (pyGet call_data "call_id") c db sd r hsd hex)]

/-- A call_analyzed payload for the sample call with a normal outcome. -/
def sampleAnalyzedCallData : List (String × PyVal) :=
  [("call_id", .str "call_123"), ("transcript", .str "hello"),
   ("call_analysis", .dict
     [("custom_analysis_data", .dict
       [("call_outcome", .str "In-Transit Update"),
        ("driver_status", .str "Driving")])])]

/-- The extractor output on `sampleAnalyzedCallData`. -/
def sampleNormalOut : List (String × PyVal) :=
  [("call_summary", .null), ("call_successful", .null),
   ("user_sentiment", .null), ("in_voicemail", .null),
   ("call_outcome", .str "In-Transit Update"),
   ("driver_status", .str "Driving"), ("current_location", .null),
   ("eta", .null), ("delay_reason", .null), ("unloading_status", .null),
   ("pod_reminder_acknowledged", .null)]

/-- Claim C2: for a known Call with no prior CallResult, call_analyzed
appends exactly one CallResult keyed to that Call, holding the payload
transcript and the extracted structured data; when exactly one CallResult
already exists for the Call, the same event updates that record in place
without growing the table; and every event preserves the invariant of at
most one CallResult per Call. -/
theorem C2_call_result_upsert :
    (∀ (now : Nat) (call_data : List (String × PyVal)) (db : DB) (c : Call)
        (sd : List (String × PyVal)),
      (pyGet call_data "call_id").truthy = true →
      db.calls.find?
        (fun c2 => pyEqStr (pyGet call_data "call_id") c2.id) = some c →
      db.results.find? (fun r => r.call_id == c.id) = none →
      extract_structured_data call_data = some sd →
      (process_webhook false now ⟨.call_analyzed, call_data⟩ db).results =
        db.results ++ [⟨db.next_result_id, c.id,
          pyGetD call_data "transcript" (.str ""), sd, now⟩] ∧
      ((process_webhook false now ⟨.call_analyzed, call_data⟩
        db).results.countP (fun r => r.call_id == c.id)) = 1) ∧
    (∀ (now : Nat) (call_data : List (String × PyVal)) (db : DB) (c : Call)
        (sd : List (String × PyVal)) (r : CallResult),
      (pyGet call_data "call_id").truthy = true →
      db.calls.find?
        (fun c2 => pyEqStr (pyGet call_data "call_id") c2.id) = some c →
      db.results.filter (fun r2 => r2.call_id == c.id) = [r] →
      extract_structured_data call_data = some sd →
      (process_webhook false now ⟨.call_analyzed, call_data⟩
        db).results.filter (fun r2 => r2.call_id == c.id) =
        [{ r with
            transcript := pyGetD call_data "transcript" (.str ""),
            structured_data := sd }] ∧
      (process_webhook false now ⟨.call_analyzed, call_data⟩
        db).results.length = db.results.length) ∧
    (∀ (f : Bool) (now : Nat) (payload : WebhookPayload) (db : DB),
      (∀ k : String, db.results.countP (fun r => r.call_id == k) ≤ 1) →
      ∀ k : String, ((process_webhook f now payload db).results.countP
        (fun r => r.call_id == k)) ≤ 1) := by
  refine ⟨?_, ?_, ?_⟩
  · intro now call_data db c sd htr hfind hnone hsd
    rw [process_webhook_known_ok false now .call_analyzed call_data db c
      { db with
        results := db.results ++
          [⟨db.next_result_id, c.id,
            pyGetD call_data "transcript" (.str ""), sd, now⟩],
        next_result_id := db.next_result_id + 1 }
      htr hfind
      (apply_event_analyzed_insert_ok now call_data
        (pyGet call_data "call_id") c db sd hsd hnone)]
    constructor
    · rfl
    · show (db.results ++
        [(⟨db.next_result_id, c.id,
          pyGetD call_data "transcript" (.str ""), sd, now⟩ :
          CallResult)]).countP (fun r => r.call_id == c.id) = 1
      rw [List.countP_append, countP_eq_zero_of_find?_eq_none _ _ hnone]
      simp [List.countP_cons]
  · intro now call_data db c sd r htr hfind hfilter hsd
    have hsome := find?_eq_some_of_filter_eq_singleton
      (fun r2 => r2.call_id == c.id) db.results r hfilter
    rw [process_webhook_known_ok false now .call_analyzed call_data db c
      { db with
        results := updateFirst (fun r2 => r2.call_id == c.id)
          (fun r2 => { r2 with
            transcript := pyGetD call_data "transcript" (.str ""),
            structured_data := sd }) db.results }
      htr hfind
      (apply_event_analyzed_update_ok now call_data
        (pyGet call_data "call_id") c db sd r hsd hsome)]
    constructor
    · exact filter_updateFirst_singleton (fun r2 => r2.call_id == c.id)
        (fun r2 => { r2 with
          transcript := pyGetD call_data "transcript" (.str ""),
          structured_data := sd }) db.results r (fun y => rfl) hfilter
    · exact length_updateFirst (fun r2 => r2.call_id == c.id)
        (fun r2 => { r2 with
          transcript := pyGetD call_data "transcript" (.str ""),
          structured_data := sd }) db.results
  · intro f now payload db hinv k
    obtain ⟨ev, call_data⟩ := payload
    cases f with
    | true =>
      rw [process_webhook_commit_fails]
      exact hinv k
    | false =>
      cases htr : (pyGet call_data "call_id").truthy with
      | false =>
        rw [process_webhook_not_truthy false now ⟨ev, call_data⟩ db htr]
        exact hinv k
      | true =>
        cases hfind : db.calls.find?
            (fun c => pyEqStr (pyGet call_data "call_id") c.id) with
        | none =>
          rw [process_webhook_unknown_call false now ⟨ev, call_data⟩ db hfind]
          exact hinv k
        | some c =>
          cases ev with
          | call_started =>
            rw [process_webhook_known_ok false now .call_started call_data
              db c
              { db with
                calls := updateFirst
                  (fun c2 => pyEqStr (pyGet call_data "call_id") c2.id)
                  (fun c2 => { c2 with status := "in-progress" }) db.calls }
              htr hfind
              (apply_event_started_ok now call_data
                (pyGet call_data "call_id") c db)]
            exact hinv k
          | call_ended =>
            rw [process_webhook_known_ok false now .call_ended call_data db c
              { db with
                calls := updateFirst
                  (fun c2 => pyEqStr (pyGet call_data "call_id") c2.id)
                  (fun c2 => { c2 with
                    status := if pyEqStr
                        (pyGetD call_data "call_status" (.str "unknown"))
                        "ended"
                      then "completed" else "failed" }) db.calls }
              htr hfind
              (apply_event_ended_ok now call_data
                (pyGet call_data "call_id") c db)]
            exact hinv k
          | call_analyzed =>
            cases hsd : extract_structured_data call_data with
            | none =>
              rw [process_webhook_known_error false now .call_analyzed
                call_data db c htr hfind
                (apply_event_analyzed_raise false now call_data
                  (pyGet call_data "call_id") c db hsd)]
              exact hinv k
            | some sd =>
              cases hex : db.results.find? (fun r => r.call_id == c.id) with
              | none =>
                rw [process_webhook_known_ok false now .call_analyzed
                  call_data db c
                  { db with
                    results := db.results ++
                      [⟨db.next_result_id, c.id,
                        pyGetD call_data "transcript" (.str ""), sd, now⟩],
                    next_result_id := db.next_result_id + 1 }
                  htr hfind
                  (apply_event_analyzed_insert_ok now call_data
                    (pyGet call_data "call_id") c db sd hsd hex)]
                show (db.results ++
                  [(⟨db.next_result_id, c.id,
                    pyGetD call_data "transcript" (.str ""), sd, now⟩ :
                    CallResult)]).countP (fun r => r.call_id == k) ≤ 1
                rw [List.countP_append]
                by_cases hkc : c.id = k
                · subst hkc
                  rw [countP_eq_zero_of_find?_eq_none _ _ hex]
                  simp [List.countP_cons]
                · have hzero : List.countP (fun r => r.call_id == k)
                      [(⟨db.next_result_id, c.id,
                        pyGetD call_data "transcript" (.str ""), sd, now⟩ :
                        CallResult)] = 0 := by
                    simp [List.countP_cons, hkc]
                  rw [hzero]
                  simpa using hinv k
              | some r =>
                rw [process_webhook_known_ok false now .call_analyzed
                  call_data db c
                  { db with
                    results := updateFirst (fun r2 => r2.call_id == c.id)
                      (fun r2 => { r2 with
                        transcript := pyGetD call_data "transcript" (.str ""),
                        structured_data := sd }) db.results }
                  htr hfind
                  (apply_event_analyzed_update_ok now call_data
                    (pyGet call_data "call_id") c db sd r hsd hex)]
                show (updateFirst (fun r2 => r2.call_id == c.id)
                  (fun r2 => { r2 with
                    transcript := pyGetD call_data "transcript" (.str ""),
                    structured_data := sd }) db.results).countP
                    (fun r2 => r2.call_id == k) ≤ 1
                rw [countP_updateFirst (fun r2 => r2.call_id == c.id)
                  (fun r2 => r2.call_id == k)
                  (fun r2 => { r2 with
                    transcript := pyGetD call_data "transcript" (.str ""),
                    structured_data := sd }) db.results (fun y => rfl)]
                exact hinv k

/-- Witness for C2: on the sample store the call_analyzed payload appends
exactly one CallResult for "call_123" with the transcript and the normal
branch fields, and the at-most-one invariant holds afterwards. -/
theorem C2_call_result_upsert_witness :
    (process_webhook false 0 ⟨.call_analyzed, sampleAnalyzedCallData⟩
      sampleDB).results =
      sampleDB.results ++
        [⟨1, "call_123", .str "hello", sampleNormalOut, 0⟩] ∧
    ((process_webhook false 0 ⟨.call_analyzed, sampleAnalyzedCallData⟩
      sampleDB).results.countP (fun r => r.call_id == "call_123")) ≤ 1 :=
  ⟨(C2_call_result_upsert.1 0 sampleAnalyzedCallData sampleDB sampleCall
      sampleNormalOut (by decide) rfl rfl rfl).1,
    C2_call_result_upsert.2.2 false 0
      ⟨.call_analyzed, sampleAnalyzedCallData⟩ sampleDB
      (fun k => by simp [sampleDB]) "call_123"⟩
